import Mathlib

/-!
# Cutout Geometry Engine — shallow embedding

This file embeds the path-building logic of `react-native-edge-loader`
(the pure "Cutout Geometry Engine") in Lean 4 and proves / refutes the
specification claims about it.

The repository contains three evolving versions of `utils/buildPath`:
* `V2` (src/unnamed/part_002): no mask, `bleed = padding + 12`, returns
  `null` for `'none'`, missing dimensions, or an unrecognized type;
* `V3` (src/unnamed/part_003): produces `maskD`/`maskFillRule`; this is the
  version the jest test-suite and both view components are written against
  (it is the only version whose `'none'` output matches the tests), so it
  is treated as the live `utils/buildPath`;
* `V4` (src/unnamed/part_004): no mask, `bleed = 20`, explicit branches
  for `punch_hole` / `island` / `teardrop` / `notch`.

Modelling conventions:
* JS numbers are modelled as `ℚ` (every operation performed on
  coordinates by this code is field arithmetic, `min`, `max`, `abs`);
* SVG path strings are modelled at the token level: each command the code
  pushes/joins becomes one `PathCmd`, in order.  The TS code only ever
  builds strings as space-joined command lists, so the list of commands is
  the faithful pre-`join` form of `pathD`/`maskD`;
* `Math.PI`-valued lengths are kept exact: an `ArcLen` `⟨a, b⟩` denotes
  the real number `a + b·π`, and every perimeter formula in the source is
  ℚ-linear in `Math.PI`, so this embedding loses nothing;
* the module-level `Dimensions.get('window').width` constant becomes an
  explicit `screenW` argument.
-/

/-- The `type` tag of a `Cutout` (src/src/index.tsx).  TS types are open
strings; `other` stands for any tag outside the recognized ones
(`teardrop` appears in part_004 in addition to the four of index.tsx). -/
inductive CutoutType where
  | none
  | notch
  | punch_hole
  | island
  | teardrop
  | other
deriving DecidableEq

/-- The `Cutout` record of src/src/index.tsx: a type tag plus optional
position / dimension / corner-radius fields. -/
structure Cutout where
  type : CutoutType
  x : Option ℚ := Option.none
  y : Option ℚ := Option.none
  width : Option ℚ := Option.none
  height : Option ℚ := Option.none
  radius : Option ℚ := Option.none
deriving DecidableEq

/-- One command of the SVG path mini-language used by the engine:
`M x,y`, `L x,y`, `A rx,ry rot large,sweep x,y`, `H x`, `V y`, `Z`. -/
inductive PathCmd where
  | move (x y : ℚ)
  | lineTo (x y : ℚ)
  | arc (rx ry : ℚ) (rot : ℚ) (largeArc sweep : Bool) (x y : ℚ)
  | horiz (x : ℚ)
  | vert (y : ℚ)
  | close
deriving DecidableEq

/-- The `maskFillRule` values. -/
inductive FillRule where
  | nonzero
  | evenodd
deriving DecidableEq

/-- An exact arc-length value `a + b·π`.  All perimeter formulas in the
source are of this shape (`Math.PI` enters only linearly). -/
structure ArcLen where
  a : ℚ
  b : ℚ
deriving DecidableEq

instance : Add ArcLen := ⟨fun l m => ⟨l.a + m.a, l.b + m.b⟩⟩

/-- A π-free length. -/
def ArcLen.ofRat (q : ℚ) : ArcLen := ⟨q, 0⟩

/-- The length `q·π`. -/
def ArcLen.piMul (q : ℚ) : ArcLen := ⟨0, q⟩

/-- The real number an `ArcLen` denotes. -/
noncomputable def ArcLen.toReal (l : ArcLen) : ℝ := (l.a : ℝ) + (l.b : ℝ) * Real.pi

theorem ArcLen.toReal_ofRat (q : ℚ) : (ArcLen.ofRat q).toReal = (q : ℝ) := by
  simp [ArcLen.toReal, ArcLen.ofRat]

theorem ArcLen.toReal_piMul (q : ℚ) : (ArcLen.piMul q).toReal = (q : ℝ) * Real.pi := by
  simp [ArcLen.toReal, ArcLen.piMul]

theorem ArcLen.toReal_add (l m : ArcLen) : (l + m).toReal = l.toReal + m.toReal := by
  show ArcLen.toReal ⟨l.a + m.a, l.b + m.b⟩ = _
  simp [ArcLen.toReal]
  ring

theorem ArcLen.toReal_mk (a b : ℚ) : (ArcLen.mk a b).toReal = (a : ℝ) + (b : ℝ) * Real.pi :=
  rfl

/-!
## Primitive path builders

`buildCirclePath`, `circlePerimeter`, `buildRoundedRectPath` and
`roundedRectPerimeter` appear verbatim (up to local-helper vs export) in
parts 002, 003 and 004; they are defined once here.
-/

/-- Function `buildCirclePath` (src/unnamed/part_002 lines 17–24, identical in
part_003 and part_004): two semicircular arcs starting at the rightmost
point `(cx+r, cy)`, clockwise. -/
def buildCirclePath (cx cy r : ℚ) : List PathCmd :=
  [ .move (cx + r) cy,
    .arc r r 0 true true (cx - r) cy,
    .arc r r 0 true true (cx + r) cy,
    .close ]

/-- Function `circlePerimeter` (part_002 lines 26–28): `2 * Math.PI * r`. -/
def circlePerimeter (r : ℚ) : ArcLen := ArcLen.piMul (2 * r)

/-- Function `buildRoundedRectPath` (part_002 lines 35–55, identical in part_003
and part_004): clockwise rounded rectangle, starting after the top-left
arc, with `safeR = Math.min(r, w/2, h/2)`. -/
def buildRoundedRectPath (x y w h r : ℚ) : List PathCmd :=
  let safeR := min r (min (w / 2) (h / 2))
  [ .move (x + safeR) y,
    .lineTo (x + w - safeR) y,
    .arc safeR safeR 0 false true (x + w) (y + safeR),
    .lineTo (x + w) (y + h - safeR),
    .arc safeR safeR 0 false true (x + w - safeR) (y + h),
    .lineTo (x + safeR) (y + h),
    .arc safeR safeR 0 false true x (y + h - safeR),
    .lineTo x (y + safeR),
    .arc safeR safeR 0 false true (x + safeR) y,
    .close ]

/-- Function `roundedRectPerimeter` (part_002 lines 57–62):
`2 * (straightW + straightH) + 2 * Math.PI * safeR` with
`safeR = Math.min(r, w/2, h/2)`. -/
def roundedRectPerimeter (w h r : ℚ) : ArcLen :=
  let safeR := min r (min (w / 2) (h / 2))
  ArcLen.ofRat (2 * ((w - 2 * safeR) + (h - 2 * safeR))) + ArcLen.piMul (2 * safeR)

/-!
## V3 — the live `utils/buildPath` (src/unnamed/part_003)
-/

namespace V3

/-- The `PathSpec` interface of part_003 (pathD, maskD, maskFillRule,
perimeter, svgLeft/Top/Width/Height). -/
structure PathSpec where
  pathD : List PathCmd
  maskD : List PathCmd
  maskFillRule : FillRule
  perimeter : ArcLen
  svgLeft : ℚ
  svgTop : ℚ
  svgWidth : ℚ
  svgHeight : ℚ
deriving DecidableEq

/-- Constant `BLEED = 40` (part_003 line 17). -/
def BLEED : ℚ := 40

/-- Function `buildNotchSpec` (part_003 lines 70–200): the bar-family builder.
`screenW` stands for the module-level `SCREEN_W`. -/
def buildNotchSpec (screenW : ℚ) (cutout : Cutout) (padding : ℚ) : PathSpec :=
  if cutout.type = .none then
    let barY := padding
    { pathD := [.move 0 barY, .lineTo screenW barY],
      maskD := [.move 0 barY, .lineTo screenW barY,
                .lineTo screenW (BLEED * 2), .lineTo 0 (BLEED * 2), .close],
      maskFillRule := .nonzero,
      perimeter := ArcLen.ofRat screenW,
      svgLeft := 0, svgTop := 0, svgWidth := screenW, svgHeight := BLEED * 2 }
  else
    let x := cutout.x.getD ((screenW - cutout.width.getD 0) / 2)
    let w := cutout.width.getD 0
    let h := cutout.height.getD 0
    let r := cutout.radius.getD 0
    let baseY := padding
    let padX := x - padding
    let padW := w + 2 * padding
    let padH := h + padding
    let cornerR := if r > 0 then r + padding else min 20 (padH / 2)
    let leftX := max 0 padX
    let rightX := min screenW (padX + padW)
    let bottomY := padH
    let safeLeftX := min leftX rightX
    let safeRightX := max leftX rightX
    let headOps : List PathCmd :=
      if safeLeftX > 0 then
        [.move 0 baseY, .lineTo (safeLeftX - cornerR) baseY,
         .arc cornerR cornerR 0 false true safeLeftX (baseY + cornerR)]
      else
        [.move 0 baseY, .move safeLeftX (baseY + cornerR)]
    let pathD := headOps ++
      [ .lineTo safeLeftX (bottomY - cornerR),
        .arc cornerR cornerR 0 false false (safeLeftX + cornerR) bottomY,
        .lineTo (safeRightX - cornerR) bottomY,
        .arc cornerR cornerR 0 false false safeRightX (bottomY - cornerR),
        .lineTo safeRightX (baseY + cornerR),
        .arc cornerR cornerR 0 false true (safeRightX + cornerR) baseY,
        .lineTo screenW baseY ]
    let perimeter := ArcLen.ofRat (screenW + 2 * (bottomY - baseY) + (padW - w))
    let svgHeight := max (bottomY + BLEED) (BLEED * 2)
    let maskD := pathD ++ [.lineTo screenW svgHeight, .lineTo 0 svgHeight, .close]
    { pathD := pathD, maskD := maskD, maskFillRule := .nonzero,
      perimeter := perimeter,
      svgLeft := 0, svgTop := 0, svgWidth := screenW, svgHeight := svgHeight }

/-- Function `buildIslandSpec` (part_003 lines 205–266): the orbit-family builder.
Branches on `isCircle = Math.abs(w - h) < 2`, not on the type tag. -/
def buildIslandSpec (screenW : ℚ) (cutout : Cutout) (padding : ℚ) : PathSpec :=
  let x := cutout.x.getD ((screenW - cutout.width.getD 100) / 2)
  let y := cutout.y.getD 20
  let w := cutout.width.getD 0
  let h := cutout.height.getD 0
  let r := cutout.radius.getD (min w h / 2)
  let isCircle := |w - h| < 2
  let padX := x - padding
  let padY := y - padding
  let padW := w + 2 * padding
  let padH := h + 2 * padding
  let padR := r + padding
  let svgLeft := padX - BLEED
  let svgTop := padY - BLEED
  let svgWidth := padW + 2 * BLEED
  let svgHeight := padH + 2 * BLEED
  let localX := padX - svgLeft
  let localY := padY - svgTop
  let shape : List PathCmd × ArcLen :=
    if isCircle then
      let radius := max padW padH / 2
      let cx := localX + padW / 2
      let cy := localY + padH / 2
      (buildCirclePath cx cy radius, circlePerimeter radius)
    else
      (buildRoundedRectPath localX localY padW padH padR,
       roundedRectPerimeter padW padH padR)
  let outerRect : List PathCmd := [.move 0 0, .horiz svgWidth, .vert svgHeight, .horiz 0, .close]
  { pathD := shape.1, maskD := outerRect ++ shape.1, maskFillRule := .evenodd,
    perimeter := shape.2,
    svgLeft := svgLeft, svgTop := svgTop, svgWidth := svgWidth, svgHeight := svgHeight }

/-- Function `buildPathSpec` (part_003 lines 268–278): `notch`/`none` go to the bar
builder, everything else to the orbit builder.  The declared return type
is `PathSpec | null` but no branch returns `null`. -/
def buildPathSpec (screenW : ℚ) (cutout : Cutout) (padding : ℚ) : Option PathSpec :=
  if cutout.type = .notch ∨ cutout.type = .none then
    some (buildNotchSpec screenW cutout padding)
  else
    some (buildIslandSpec screenW cutout padding)

end V3

/-!
## V2 — src/unnamed/part_002
-/

/-- The mask-less `PathSpec` interface shared by part_002 and part_004. -/
structure PathSpecNoMask where
  pathD : List PathCmd
  perimeter : ArcLen
  svgLeft : ℚ
  svgTop : ℚ
  svgWidth : ℚ
  svgHeight : ℚ
deriving DecidableEq

namespace V2

/-- Function `buildPathSpec` (part_002 lines 73–131): returns `null` when the type
is `'none'` or any of `x`, `y`, `width`, `height` is `null`; then handles
`punch_hole` (circle) and `island`/`notch` (rounded rect), and returns
`null` for any other type.  `bleed = padding + 12`. -/
def buildPathSpec (cutout : Cutout) (padding : ℚ) : Option PathSpecNoMask :=
  match cutout.type, cutout.x, cutout.y, cutout.width, cutout.height with
  | .none, _, _, _, _ => Option.none
  | type, some x, some y, some width, some height =>
    let bleed := padding + 12
    if type = .punch_hole then
      let r := max width height / 2 + padding
      let cx := x + width / 2
      let cy := y + height / 2
      some { pathD := buildCirclePath cx cy r,
             perimeter := circlePerimeter r,
             svgLeft := cx - r - bleed, svgTop := cy - r - bleed,
             svgWidth := (r + bleed) * 2, svgHeight := (r + bleed) * 2 }
    else if type = .island ∨ type = .notch then
      let padX := x - padding
      let padY := y - padding
      let padW := width + 2 * padding
      let padH := height + 2 * padding
      let r := min (cutout.radius.getD 8 + padding) (min (padW / 2) (padH / 2))
      some { pathD := buildRoundedRectPath padX padY padW padH r,
             perimeter := roundedRectPerimeter padW padH r,
             svgLeft := padX - bleed, svgTop := padY - bleed,
             svgWidth := padW + 2 * bleed, svgHeight := padH + 2 * bleed }
    else
      Option.none
  | _, _, _, _, _ => Option.none

end V2

/-!
## V4 — src/unnamed/part_004
-/

namespace V4

/-- Function `buildNotchBarPath` (part_004 lines 67–112): the open top-bar path
around a rectangular notch, together with the perimeter the source
computes for it. -/
def buildNotchBarPath (screenW barY cutoutLocalX cutoutLocalY cutoutW cutoutH
    padding radius : ℚ) : List PathCmd × ArcLen :=
  let padX := cutoutLocalX - padding
  let padY := cutoutLocalY - padding
  let padW := cutoutW + 2 * padding
  let padH := cutoutH + padding
  let r := min (radius + padding) (min (padW / 2) (padH / 2))
  let leftX := padX
  let rightX := padX + padW
  let bottomY := padY + padH
  let pathD : List PathCmd :=
    [ .move 0 barY,
      .lineTo (leftX + r) barY,
      .arc r r 0 false true leftX (barY + r),
      .lineTo leftX (bottomY - r),
      .arc r r 0 false false (leftX + r) bottomY,
      .lineTo (rightX - r) bottomY,
      .arc r r 0 false false rightX (bottomY - r),
      .lineTo rightX (barY + r),
      .arc r r 0 false true (rightX - r) barY,
      .lineTo screenW barY ]
  let cornerArc := ArcLen.piMul (r / 2)
  let notchPerimeter :=
    cornerArc + ArcLen.ofRat (padH - r) + cornerArc + ArcLen.ofRat (padW - 2 * r) +
      cornerArc + ArcLen.ofRat (padH - r) + cornerArc
  (pathD, ArcLen.ofRat (leftX + r) + notchPerimeter + ArcLen.ofRat (screenW - (rightX - r)))

/-- Function `buildPathSpec` (part_004 lines 134–269): explicit branches for
`'none'`, `punch_hole`, `island`, `teardrop`, `notch`; `bleed = 20`;
the orbit branches clamp `svgLeft`/`svgTop` at zero. -/
def buildPathSpec (screenW : ℚ) (cutout : Cutout) (padding : ℚ) : Option PathSpecNoMask :=
  let bleed : ℚ := 20
  if cutout.type = .none then
    let svgHeight := bleed * 2
    let barY := bleed
    some { pathD := [.move 0 barY, .lineTo screenW barY],
           perimeter := ArcLen.ofRat screenW,
           svgLeft := 0, svgTop := 0, svgWidth := screenW, svgHeight := svgHeight }
  else
    match cutout.x, cutout.y, cutout.width, cutout.height with
    | some x, some y, some width, some height =>
      if cutout.type = .punch_hole then
        let r := max width height / 2 + padding
        let cx := x + width / 2
        let cy := y + height / 2
        let svgLeft := max 0 (cx - r - bleed)
        let svgTop := max 0 (cy - r - bleed)
        let localCx := cx - svgLeft
        let localCy := cy - svgTop
        some { pathD := buildCirclePath localCx localCy r,
               perimeter := circlePerimeter r,
               svgLeft := svgLeft, svgTop := svgTop,
               svgWidth := (r + bleed) * 2, svgHeight := (r + bleed) * 2 }
      else if cutout.type = .island then
        let padX := x - padding
        let padY := y - padding
        let padW := width + 2 * padding
        let padH := height + 2 * padding
        let r := min (cutout.radius.getD 8 + padding) (min (padW / 2) (padH / 2))
        let svgLeft := max 0 (padX - bleed)
        let svgTop := max 0 (padY - bleed)
        let localX := padX - svgLeft
        let localY := padY - svgTop
        some { pathD := buildRoundedRectPath localX localY padW padH r,
               perimeter := roundedRectPerimeter padW padH r,
               svgLeft := svgLeft, svgTop := svgTop,
               svgWidth := padW + 2 * bleed, svgHeight := padH + 2 * bleed }
      else if cutout.type = .teardrop then
        let r := max width height / 2 + padding
        let cx := x + width / 2
        let cy := y + height / 2
        let svgLeft := max 0 (cx - r - bleed)
        let svgTop := max 0 (cy - r - bleed)
        let localCx := cx - svgLeft
        let localCy := cy - svgTop
        some { pathD := buildCirclePath localCx localCy r,
               perimeter := circlePerimeter r,
               svgLeft := svgLeft, svgTop := svgTop,
               svgWidth := (r + bleed) * 2, svgHeight := (r + bleed) * 2 }
      else if cutout.type = .notch then
        let svgHeight := y + height + padding + bleed
        let barY := bleed
        let cutoutLocalX := x
        let cutoutLocalY := y + bleed
        let r := cutout.radius.getD 4
        let bar := buildNotchBarPath screenW barY cutoutLocalX cutoutLocalY
          width height padding r
        some { pathD := bar.1, perimeter := bar.2,
               svgLeft := 0, svgTop := 0, svgWidth := screenW, svgHeight := svgHeight }
      else
        Option.none
    | _, _, _, _ => Option.none

end V4

/-!
## Android auto-detection (src/src/index.tsx lines 69–88)
-/

/-- One element of the array returned by the native `getCutouts()` call
(the `Spec` TurboModule interface): a bounding rect in physical pixels
plus `gravity` and `type` strings. -/
structure NativeCutout where
  x : ℚ
  y : ℚ
  width : ℚ
  height : ℚ
  gravity : String
  type : String
deriving DecidableEq

/-- The Android branch of `getCutouts` (src/src/index.tsx lines 70–88) as
a pure function of the native result and `PixelRatio.get()`: a non-empty
list yields a `punch_hole` cutout from the first rect with coordinates
divided by the pixel ratio; an empty list yields `{ type: 'none' }`. -/
def getCutoutsAndroid (cutouts : List NativeCutout) ( ratio : ℚ) : Cutout :=
  match cutouts with
  | c :: _ =>
    { type := .punch_hole,
      x := some (c.x / ratio), y := some (c.y / ratio),
      width := some (c.width / ratio), height := some (c.height / ratio) }
  | [] => { type := .none }

/-!
## Arc-length semantics of the path mini-language

`pathLength` assigns to a command list the exact Euclidean arc length of
the curve it draws: lines contribute their chord length, `A` commands the
circular-arc length reconstructed from radius, endpoints and the
large-arc flag (every arc this engine emits is circular, `rx = ry`,
rotation 0), `Z` the straight segment back to the subpath start.  This is
verification-side semantics, not code translation, hence allowed to be
noncomputable (it uses `√` and `arcsin`).
-/

/-- Euclidean distance between two rational points, as a real. -/
noncomputable def segDist (p q : ℚ × ℚ) : ℝ :=
  Real.sqrt (((p.1 - q.1 : ℚ) : ℝ) ^ 2 + ((p.2 - q.2 : ℚ) : ℝ) ^ 2)

/-- Length of a circular arc of radius `r` between endpoints `p` and `q`:
`r·θ` where the central angle `θ` is the minor-arc angle
`2·arcsin(chord/(2r))`, or its reflex complement when the large-arc flag
is set. -/
noncomputable def arcSegLength (r : ℚ) (largeArc : Bool) (p q : ℚ × ℚ) : ℝ :=
  let c := segDist p q
  let theta := 2 * Real.arcsin (c / (2 * (r : ℝ)))
  (r : ℝ) * (if largeArc then 2 * Real.pi - theta else theta)

/-- Accumulates arc length along a command list, tracking the current
point and the current subpath start. -/
noncomputable def pathLengthAux : ℚ × ℚ → ℚ × ℚ → List PathCmd → ℝ
  | _, _, [] => 0
  | _, _, PathCmd.move x y :: rest => pathLengthAux (x, y) (x, y) rest
  | cur, start, PathCmd.lineTo x y :: rest =>
      segDist cur (x, y) + pathLengthAux (x, y) start rest
  | cur, start, PathCmd.horiz x :: rest =>
      segDist cur (x, cur.2) + pathLengthAux (x, cur.2) start rest
  | cur, start, PathCmd.vert y :: rest =>
      segDist cur (cur.1, y) + pathLengthAux (cur.1, y) start rest
  | cur, start, PathCmd.arc rx _ _ largeArc _ x y :: rest =>
      arcSegLength rx largeArc cur (x, y) + pathLengthAux (x, y) start rest
  | cur, start, PathCmd.close :: rest =>
      segDist cur start + pathLengthAux start start rest

/-- Total arc length of a path, starting from the origin. -/
noncomputable def pathLength (cmds : List PathCmd) : ℝ :=
  pathLengthAux (0, 0) (0, 0) cmds

theorem segDist_horiz (x1 x2 y : ℚ) :
    segDist (x1, y) (x2, y) = |((x1 - x2 : ℚ) : ℝ)| := by
  simp [segDist, Real.sqrt_sq_eq_abs]

theorem segDist_vert (x y1 y2 : ℚ) :
    segDist (x, y1) (x, y2) = |((y1 - y2 : ℚ) : ℝ)| := by
  simp [segDist, Real.sqrt_sq_eq_abs]

/-- A non-large circular arc whose chord has horizontal and vertical
extent both equal to the radius is a quarter arc: length `(π/2)·r`. -/
theorem arcSegLength_quarter (r : ℚ) (hr : 0 ≤ r) (p q : ℚ × ℚ)
    (hx : |p.1 - q.1| = r) (hy : |p.2 - q.2| = r) :
    arcSegLength r false p q = Real.pi / 2 * (r : ℝ) := by
  rcases eq_or_lt_of_le hr with h0 | h0
  · simp [arcSegLength, ← h0]
  · have hxr : ((p.1 - q.1 : ℚ) : ℝ) ^ 2 = (r : ℝ) ^ 2 := by
      rw [← sq_abs, ← Rat.cast_abs, hx]
    have hyr : ((p.2 - q.2 : ℚ) : ℝ) ^ 2 = (r : ℝ) ^ 2 := by
      rw [← sq_abs, ← Rat.cast_abs, hy]
    have hrR : (0 : ℝ) < (r : ℝ) := by exact_mod_cast h0
    have hchord : segDist p q = Real.sqrt 2 * (r : ℝ) := by
      rw [segDist, hxr, hyr]
      rw [show (r : ℝ) ^ 2 + (r : ℝ) ^ 2 = 2 * (r : ℝ) ^ 2 by ring]
      rw [Real.sqrt_mul (by norm_num), Real.sqrt_sq hrR.le]
    have hratio : segDist p q / (2 * (r : ℝ)) = Real.sqrt 2 / 2 := by
      rw [hchord]
      field_simp
      ring
    have harcsin : Real.arcsin (Real.sqrt 2 / 2) = Real.pi / 4 := by
      rw [← Real.sin_pi_div_four]
      exact Real.arcsin_sin (by linarith [Real.pi_pos]) (by linarith [Real.pi_pos])
    rw [arcSegLength]
    simp only [hratio, harcsin, Bool.false_eq_true, if_false]
    ring

/-- The clamped corner radius `Math.min(radius + padding, padW / 2, padH / 2)`
computed by `V4.buildNotchBarPath`, named for use in theorem statements. -/
def V4.clampedR (cutoutW cutoutH padding radius : ℚ) : ℚ :=
  min (radius + padding) (min ((cutoutW + 2 * padding) / 2) ((cutoutH + padding) / 2))

/-- Exact arc length of the ten-command bar path emitted by
`V4.buildNotchBarPath`, for any parameters for which the emitted segments
run in their intended directions: run-in, four quarter arcs, two walls,
bottom, run-out. -/
theorem pathLength_notchList (sw bY lx rx bot r : ℚ)
    (hr : 0 ≤ r) (hhead : 0 ≤ lx + r) (hwall : bY + 2 * r ≤ bot)
    (hbot : lx + 2 * r ≤ rx) (htail : rx - r ≤ sw) :
    pathLength
      [ .move 0 bY,
        .lineTo (lx + r) bY,
        .arc r r 0 false true lx (bY + r),
        .lineTo lx (bot - r),
        .arc r r 0 false false (lx + r) bot,
        .lineTo (rx - r) bot,
        .arc r r 0 false false rx (bot - r),
        .lineTo rx (bY + r),
        .arc r r 0 false true (rx - r) bY,
        .lineTo sw bY ] =
      ((lx + r : ℚ) : ℝ) + 4 * (Real.pi / 2 * (r : ℝ))
        + 2 * ((bot - bY - 2 * r : ℚ) : ℝ) + ((rx - lx - 2 * r : ℚ) : ℝ)
        + ((sw - (rx - r) : ℚ) : ℝ) := by
  have q1 : arcSegLength r false ((lx + r), bY) (lx, (bY + r)) = Real.pi / 2 * (r : ℝ) :=
    arcSegLength_quarter r hr _ _ (by simp [abs_of_nonneg hr])
      (by simp [abs_of_nonpos, hr])
  have q2 : arcSegLength r false (lx, (bot - r)) ((lx + r), bot) = Real.pi / 2 * (r : ℝ) :=
    arcSegLength_quarter r hr _ _ (by simp [abs_of_nonpos, hr])
      (by simp [abs_of_nonpos, hr])
  have q3 : arcSegLength r false ((rx - r), bot) (rx, (bot - r)) = Real.pi / 2 * (r : ℝ) :=
    arcSegLength_quarter r hr _ _ (by simp [abs_of_nonpos, hr])
      (by simp [abs_of_nonneg hr])
  have q4 : arcSegLength r false (rx, (bY + r)) ((rx - r), bY) = Real.pi / 2 * (r : ℝ) :=
    arcSegLength_quarter r hr _ _ (by simp [abs_of_nonneg hr])
      (by simp [abs_of_nonneg hr])
  have e0 : |(0 - (lx + r) : ℚ)| = lx + r := by
    rw [abs_sub_comm]
    simp [abs_of_nonneg hhead]
  have ew1 : |((bY + r) - (bot - r) : ℚ)| = bot - bY - 2 * r := by
    rw [abs_sub_comm, abs_of_nonneg (by linarith)]
    ring
  have eb : |((lx + r) - (rx - r) : ℚ)| = rx - lx - 2 * r := by
    rw [abs_sub_comm, abs_of_nonneg (by linarith)]
    ring
  have ew2 : |((bot - r) - (bY + r) : ℚ)| = bot - bY - 2 * r := by
    rw [abs_of_nonneg (by linarith)]
    ring
  have et : |((rx - r) - sw : ℚ)| = sw - (rx - r) := by
    rw [abs_sub_comm, abs_of_nonneg (by linarith)]
  simp only [pathLength, pathLengthAux, segDist_horiz, segDist_vert, q1, q2, q3, q4,
    ← Rat.cast_abs, e0, ew1, eb, ew2, et]
  push_cast
  ring

/-- Lemma: `V4.buildNotchBarPath` emits a path whose exact arc length differs
from the perimeter it returns by `2·(padY − barY − r)`: the perimeter's
two wall terms are `padH − r` each, while the emitted walls have length
`bottomY − barY − 2r` each. -/
theorem v4_notchBar_length (screenW bY cx cy w h p rad : ℚ)
    (hr : 0 ≤ V4.clampedR w h p rad)
    (hhead : 0 ≤ (cx - p) + V4.clampedR w h p rad)
    (hwall : bY + 2 * V4.clampedR w h p rad ≤ (cy - p) + (h + p))
    (htail : (cx - p) + (w + 2 * p) - V4.clampedR w h p rad ≤ screenW) :
    pathLength (V4.buildNotchBarPath screenW bY cx cy w h p rad).1 =
      (V4.buildNotchBarPath screenW bY cx cy w h p rad).2.toReal
        + 2 * (((cy - p) - bY - V4.clampedR w h p rad : ℚ) : ℝ) := by
  have hbot : (cx - p) + 2 * V4.clampedR w h p rad ≤ (cx - p) + (w + 2 * p) := by
    have hW : V4.clampedR w h p rad ≤ (w + 2 * p) / 2 :=
      le_trans (min_le_right _ _) (min_le_left _ _)
    linarith
  have key := pathLength_notchList screenW bY (cx - p) ((cx - p) + (w + 2 * p))
    ((cy - p) + (h + p)) (V4.clampedR w h p rad) hr hhead hwall hbot (by linarith)
  simp only [V4.clampedR] at key ⊢
  simp only [V4.buildNotchBarPath]
  rw [key]
  simp only [ArcLen.toReal_add, ArcLen.toReal_ofRat, ArcLen.toReal_piMul]
  push_cast
  ring

/-!
## Claims
-/

/-- C2: `buildPathSpec({type: 'none'}, 0)` (live builder, part_003)
returns a `PathSpec` whose `pathD` is exactly `M 0,0 L <screenWidth>,0`
and whose `maskFillRule` is `nonzero`. -/
theorem claim_C2 (screenW : ℚ) :
    ∃ s, V3.buildPathSpec screenW { type := .none } 0 = some s ∧
      s.pathD = [.move 0 0, .lineTo screenW 0] ∧
      s.maskFillRule = .nonzero := by
  exact ⟨_, rfl, rfl, rfl⟩

/-- C6: for `r > 0`, `circlePerimeter r = 2·π·r`, and `buildCirclePath`
emits a closed path of exactly two clockwise semicircular arc commands,
starting at the rightmost point `(cx+r, cy)`, sweeping to the leftmost
point `(cx−r, cy)`, then back to the start, then closing. -/
theorem claim_C6 (cx cy r : ℚ) (hr : 0 < r) :
    (circlePerimeter r).toReal = 2 * Real.pi * (r : ℝ) ∧
    buildCirclePath cx cy r =
      [ .move (cx + r) cy,
        .arc r r 0 true true (cx - r) cy,
        .arc r r 0 true true (cx + r) cy,
        .close ] := by
  refine ⟨?_, rfl⟩
  rw [circlePerimeter, ArcLen.toReal_piMul]
  push_cast
  ring

/-- Witness for C6 at `cx = 0`, `cy = 0`, `r = 1`. -/
theorem claim_C6_witness :
    (circlePerimeter 1).toReal = 2 * Real.pi * ((1 : ℚ) : ℝ) ∧
    buildCirclePath 0 0 1 =
      [ .move (0 + 1) 0,
        .arc 1 1 0 true true (0 - 1) 0,
        .arc 1 1 0 true true (0 + 1) 0,
        .close ] :=
  claim_C6 0 0 1 (by norm_num)

/-- C10: the Android branch of `getCutouts` maps a non-empty native list
to a `punch_hole` cutout built from the first rect's coordinates divided
by the pixel ratio, an empty list to `{type: 'none'}`, and therefore
never yields a `notch` or `island` cutout, so the bar-with-detour family
is unreachable from Android auto-detection. -/
theorem claim_C10 :
    (∀ ratio : ℚ, getCutoutsAndroid [] ratio = { type := CutoutType.none }) ∧
    (∀ (c : NativeCutout) (rest : List NativeCutout) ( ratio : ℚ),
      getCutoutsAndroid (c :: rest) ratio =
        { type := CutoutType.punch_hole,
          x := some (c.x / ratio), y := some (c.y / ratio),
          width := some (c.width / ratio), height := some (c.height / ratio) }) ∧
    (∀ (cutouts : List NativeCutout) ( ratio : ℚ),
      (getCutoutsAndroid cutouts ratio).type = .punch_hole ∨
        (getCutoutsAndroid cutouts ratio).type = .none) ∧
    (∀ (cutouts : List NativeCutout) ( ratio : ℚ),
      (getCutoutsAndroid cutouts ratio).type ≠ .notch ∧
        (getCutoutsAndroid cutouts ratio).type ≠ .island) := by
  refine ⟨fun _ => rfl, fun _ _ _ => rfl, ?_, ?_⟩
  · intro cutouts ratio
    cases cutouts <;> simp [getCutoutsAndroid]
  · intro cutouts ratio
    cases cutouts <;> simp [getCutoutsAndroid]

/-- C5 counterexample: at `w = 2`, `h = 2`, `r = −1` the value returned
by `roundedRectPerimeter` is `16 − 2π`, strictly below
`2·(w+h) − 8·safeR = 16`, so the claimed inequality fails for "any r". -/
theorem claim_C5_counterexample :
    ¬ ((roundedRectPerimeter 2 2 (-1)).toReal ≥
        2 * ((2 : ℝ) + 2) - 8 * ((min (-1 : ℚ) (min (2 / 2) (2 / 2)) : ℚ) : ℝ)) := by
  have hmin : (min (-1 : ℚ) (min (2 / 2) (2 / 2))) = -1 := by norm_num
  simp only [roundedRectPerimeter, hmin, ArcLen.toReal_add, ArcLen.toReal_ofRat,
    ArcLen.toReal_piMul]
  intro hcontra
  norm_num at hcontra
  nlinarith [Real.pi_pos]

/-- C5 amended: `roundedRectPerimeter` uses `safeR = min(r, w/2, h/2)` and
returns `2·(w − 2·safeR) + 2·(h − 2·safeR) + 2·π·safeR`; the bound
`≥ 2·(w+h) − 8·safeR` holds for every nonnegative requested radius
(it fails for negative `r`, which makes `safeR` negative). -/
theorem claim_C5 (w h r : ℚ) (hw : 0 < w) (hh : 0 < h) (hr : 0 ≤ r) :
    (roundedRectPerimeter w h r).toReal =
      2 * ((w : ℝ) - 2 * ((min r (min (w / 2) (h / 2)) : ℚ) : ℝ))
        + 2 * ((h : ℝ) - 2 * ((min r (min (w / 2) (h / 2)) : ℚ) : ℝ))
        + 2 * Real.pi * ((min r (min (w / 2) (h / 2)) : ℚ) : ℝ) ∧
    (roundedRectPerimeter w h r).toReal ≥
      2 * ((w : ℝ) + (h : ℝ)) - 8 * ((min r (min (w / 2) (h / 2)) : ℚ) : ℝ) := by
  have hs : (0 : ℚ) ≤ min r (min (w / 2) (h / 2)) :=
    le_min hr (le_min (by positivity) (by positivity))
  have hs' : (0 : ℝ) ≤ ((min r (min (w / 2) (h / 2)) : ℚ) : ℝ) := by exact_mod_cast hs
  constructor
  · simp only [roundedRectPerimeter, ArcLen.toReal_add, ArcLen.toReal_ofRat,
      ArcLen.toReal_piMul]
    push_cast
    ring
  · simp only [roundedRectPerimeter, ArcLen.toReal_add, ArcLen.toReal_ofRat,
      ArcLen.toReal_piMul]
    push_cast
    push_cast at hs'
    nlinarith [Real.pi_gt_three]

/-- C1 counterexample: the live builder (part_003) does not return
no-result for `buildPathSpec({type: 'island'}, 0)` with no width/height —
it routes every non-bar type to the orbit builder, which defaults the
missing dimensions, so a `PathSpec` is produced. -/
theorem claim_C1_counterexample :
    V3.buildPathSpec 360 { type := .island } 0 ≠ Option.none := by
  simp [V3.buildPathSpec]

/-- C1 amended: the no-result policy holds for the part_002 and part_004
builders — a non-`none` type with missing `width`/`height` yields `null`,
`buildPathSpec({type:'island'}, 0)` yields `null`, and an unrecognized
type yields `null` — but the live part_003 builder never returns `null`:
missing dimensions are defaulted and unrecognized types are routed to the
orbit builder. -/
theorem claim_C1 :
    (∀ (c : Cutout) (p : ℚ), c.type ≠ .none →
      (c.width = Option.none ∨ c.height = Option.none) →
      V2.buildPathSpec c p = Option.none) ∧
    (∀ (screenW : ℚ) (c : Cutout) (p : ℚ), c.type ≠ .none →
      (c.width = Option.none ∨ c.height = Option.none) →
      V4.buildPathSpec screenW c p = Option.none) ∧
    (∀ (c : Cutout) (p : ℚ), c.type = .other → V2.buildPathSpec c p = Option.none) ∧
    (∀ (screenW : ℚ) (c : Cutout) (p : ℚ), c.type = .other →
      V4.buildPathSpec screenW c p = Option.none) ∧
    (V2.buildPathSpec { type := .island } 0 = Option.none) ∧
    (∀ (screenW : ℚ) (c : Cutout) (p : ℚ),
      (V3.buildPathSpec screenW c p).isSome = true) := by
  refine ⟨?_, ?_, ?_, ?_, rfl, ?_⟩
  · intro c p htype hmiss
    obtain ⟨t, x, y, wd, ht, rad⟩ := c
    cases t <;> rcases x with _ | x <;> rcases y with _ | y <;>
      rcases wd with _ | wd <;> rcases ht with _ | ht <;>
      simp_all [V2.buildPathSpec]
  · intro screenW c p htype hmiss
    obtain ⟨t, x, y, wd, ht, rad⟩ := c
    cases t <;> rcases x with _ | x <;> rcases y with _ | y <;>
      rcases wd with _ | wd <;> rcases ht with _ | ht <;>
      simp_all [V4.buildPathSpec]
  · intro c p htype
    obtain ⟨t, x, y, wd, ht, rad⟩ := c
    cases htype
    rcases x with _ | x <;> rcases y with _ | y <;>
      rcases wd with _ | wd <;> rcases ht with _ | ht <;>
      simp [V2.buildPathSpec]
  · intro screenW c p htype
    obtain ⟨t, x, y, wd, ht, rad⟩ := c
    cases htype
    rcases x with _ | x <;> rcases y with _ | y <;>
      rcases wd with _ | wd <;> rcases ht with _ | ht <;>
      simp [V4.buildPathSpec]
  · intro screenW c p
    rw [V3.buildPathSpec]
    split <;> rfl

/-- Witness for C1: the amended statements applied at concrete inputs. -/
theorem claim_C1_witness :
    V2.buildPathSpec { type := .island, x := some 1 } 0 = Option.none ∧
    V4.buildPathSpec 360 { type := .island, x := some 1 } 0 = Option.none ∧
    V2.buildPathSpec
      { type := .other, x := some 1, y := some 2, width := some 3, height := some 4 } 5 =
      Option.none ∧
    V4.buildPathSpec 360
      { type := .other, x := some 1, y := some 2, width := some 3, height := some 4 } 5 =
      Option.none ∧
    (V3.buildPathSpec 360 { type := .island } 0).isSome = true :=
  ⟨claim_C1.1 _ 0 (by simp) (Or.inl rfl),
   claim_C1.2.1 360 _ 0 (by simp) (Or.inl rfl),
   claim_C1.2.2.1 _ 5 rfl,
   claim_C1.2.2.2.1 360 _ 5 rfl,
   claim_C1.2.2.2.2.2 360 _ 0⟩

/-- C3 counterexample: in the live builder (part_003) a square `island`
(`w = h = 40`) is rendered with the Circle primitive, not the
Rounded-Rectangle primitive — orbit shapes are classified by
`|w − h| < 2`, not by type alone. -/
theorem claim_C3_counterexample :
    ∃ s, V3.buildPathSpec 360
        { type := .island, x := some 100, y := some 20, width := some 40,
          height := some 40, radius := some 12 } 0 = some s ∧
      s.pathD = buildCirclePath 60 60 20 ∧
      s.pathD ≠ buildRoundedRectPath 40 40 40 40 12 := by
  refine ⟨_, rfl, ?_, ?_⟩
  · simp only [V3.buildIslandSpec, V3.BLEED, Option.getD_some, buildCirclePath]
    norm_num
  · simp only [V3.buildIslandSpec, V3.BLEED, Option.getD_some]
    norm_num [buildCirclePath, buildRoundedRectPath]

/-- C3 amended: type-only classification holds in the part_004 builder
(`punch_hole` and `teardrop` → Circle primitive with radius
`max(w,h)/2 + padding`; `island` → Rounded-Rectangle primitive with the
cutout's own radius, default 8), but the live part_003 builder classifies
every orbit-family shape by proportion: `|w − h| < 2` yields the Circle
primitive (radius `max(padW, padH)/2`) and otherwise the
Rounded-Rectangle primitive, regardless of the type tag. -/
theorem claim_C3 (c : Cutout) (hn1 : c.type ≠ .notch) (hn2 : c.type ≠ .none) :
    (∀ (screenW p x y w h : ℚ) (rad : Option ℚ),
      ∃ s, V4.buildPathSpec screenW
          { type := .punch_hole, x := some x, y := some y, width := some w,
            height := some h, radius := rad } p = some s ∧
        ∃ cx cy, s.pathD = buildCirclePath cx cy (max w h / 2 + p)) ∧
    (∀ (screenW p x y w h : ℚ) (rad : Option ℚ),
      ∃ s, V4.buildPathSpec screenW
          { type := .teardrop, x := some x, y := some y, width := some w,
            height := some h, radius := rad } p = some s ∧
        ∃ cx cy, s.pathD = buildCirclePath cx cy (max w h / 2 + p)) ∧
    (∀ (screenW p x y w h : ℚ) (rad : Option ℚ),
      ∃ s, V4.buildPathSpec screenW
          { type := .island, x := some x, y := some y, width := some w,
            height := some h, radius := rad } p = some s ∧
        ∃ lx ly, s.pathD = buildRoundedRectPath lx ly (w + 2 * p) (h + 2 * p)
          (min (rad.getD 8 + p) (min ((w + 2 * p) / 2) ((h + 2 * p) / 2)))) ∧
    (∀ (screenW p : ℚ),
      ∃ s cx cy lx ly, V3.buildPathSpec screenW c p = some s ∧
        s.pathD =
          (if |c.width.getD 0 - c.height.getD 0| < 2 then
            buildCirclePath cx cy
              (max (c.width.getD 0 + 2 * p) (c.height.getD 0 + 2 * p) / 2)
          else
            buildRoundedRectPath lx ly (c.width.getD 0 + 2 * p) (c.height.getD 0 + 2 * p)
              (c.radius.getD (min (c.width.getD 0) (c.height.getD 0) / 2) + p))) := by
  refine ⟨?_, ?_, ?_, ?_⟩
  · intro screenW p x y w h rad
    exact ⟨_, rfl, _, _, rfl⟩
  · intro screenW p x y w h rad
    exact ⟨_, rfl, _, _, rfl⟩
  · intro screenW p x y w h rad
    exact ⟨_, rfl, _, _, rfl⟩
  · intro screenW p
    have hdisp : ¬ (c.type = .notch ∨ c.type = .none) := by
      simp [hn1, hn2]
    have hspec : V3.buildPathSpec screenW c p = some (V3.buildIslandSpec screenW c p) := by
      rw [V3.buildPathSpec, if_neg hdisp]
    by_cases hc : |c.width.getD 0 - c.height.getD 0| < 2
    · have hpath : (V3.buildIslandSpec screenW c p).pathD =
          buildCirclePath
            ((c.x.getD ((screenW - c.width.getD 100) / 2) - p) -
              ((c.x.getD ((screenW - c.width.getD 100) / 2) - p) - V3.BLEED) +
              (c.width.getD 0 + 2 * p) / 2)
            ((c.y.getD 20 - p) - ((c.y.getD 20 - p) - V3.BLEED) +
              (c.height.getD 0 + 2 * p) / 2)
            (max (c.width.getD 0 + 2 * p) (c.height.getD 0 + 2 * p) / 2) := by
        simp only [V3.buildIslandSpec]
        rw [if_pos hc]
      exact ⟨V3.buildIslandSpec screenW c p,
        (c.x.getD ((screenW - c.width.getD 100) / 2) - p) -
          ((c.x.getD ((screenW - c.width.getD 100) / 2) - p) - V3.BLEED) +
          (c.width.getD 0 + 2 * p) / 2,
        (c.y.getD 20 - p) - ((c.y.getD 20 - p) - V3.BLEED) + (c.height.getD 0 + 2 * p) / 2,
        0, 0, hspec, by rw [hpath, if_pos hc]⟩
    · have hpath : (V3.buildIslandSpec screenW c p).pathD =
          buildRoundedRectPath
            ((c.x.getD ((screenW - c.width.getD 100) / 2) - p) -
              ((c.x.getD ((screenW - c.width.getD 100) / 2) - p) - V3.BLEED))
            ((c.y.getD 20 - p) - ((c.y.getD 20 - p) - V3.BLEED))
            (c.width.getD 0 + 2 * p) (c.height.getD 0 + 2 * p)
            (c.radius.getD (min (c.width.getD 0) (c.height.getD 0) / 2) + p) := by
        simp only [V3.buildIslandSpec]
        rw [if_neg hc]
      exact ⟨V3.buildIslandSpec screenW c p, 0, 0,
        (c.x.getD ((screenW - c.width.getD 100) / 2) - p) -
          ((c.x.getD ((screenW - c.width.getD 100) / 2) - p) - V3.BLEED),
        (c.y.getD 20 - p) - ((c.y.getD 20 - p) - V3.BLEED),
        hspec, by rw [hpath, if_neg hc]⟩

/-- Witness for C3: the amended statement applied to a square
`punch_hole` cutout at `screenW = 360`, `p = 0`. -/
theorem claim_C3_witness :
    ∃ s cx cy lx ly, V3.buildPathSpec 360
        { type := CutoutType.punch_hole, x := some 300, y := some 10,
          width := some 11, height := some 11, radius := Option.none } 0 = some s ∧
      s.pathD =
        (if |(some (11 : ℚ)).getD 0 - (some (11 : ℚ)).getD 0| < 2 then
          buildCirclePath cx cy
            (max ((some (11 : ℚ)).getD 0 + 2 * 0) ((some (11 : ℚ)).getD 0 + 2 * 0) / 2)
        else
          buildRoundedRectPath lx ly ((some (11 : ℚ)).getD 0 + 2 * 0)
            ((some (11 : ℚ)).getD 0 + 2 * 0)
            ((Option.none : Option ℚ).getD
              (min ((some (11 : ℚ)).getD 0) ((some (11 : ℚ)).getD 0) / 2) + 0)) :=
  (claim_C3
    { type := CutoutType.punch_hole, x := some 300, y := some 10,
      width := some 11, height := some 11, radius := Option.none }
    (by simp) (by simp)).2.2.2 360 0

/-- A circle perimeter is positive for positive radius. -/
theorem circlePerimeter_pos (r : ℚ) (hr : 0 < r) : 0 < (circlePerimeter r).toReal := by
  rw [circlePerimeter, ArcLen.toReal_piMul]
  have h2 : (0 : ℝ) < ((2 * r : ℚ) : ℝ) := by
    exact_mod_cast (by linarith : (0 : ℚ) < 2 * r)
  exact mul_pos h2 Real.pi_pos

/-- A rounded-rect perimeter is positive whenever the requested radius is
nonnegative and the box has positive total extent. -/
theorem roundedRectPerimeter_pos (w h r : ℚ) (hw : 0 ≤ w) (hh : 0 ≤ h)
    (hr : 0 ≤ r) (hsum : 0 < w + h) :
    0 < (roundedRectPerimeter w h r).toReal := by
  have hs0 : (0 : ℚ) ≤ min r (min (w / 2) (h / 2)) :=
    le_min hr (le_min (by linarith) (by linarith))
  have hsw : min r (min (w / 2) (h / 2)) ≤ w / 2 :=
    le_trans (min_le_right _ _) (min_le_left _ _)
  simp only [roundedRectPerimeter, ArcLen.toReal_add, ArcLen.toReal_ofRat,
    ArcLen.toReal_piMul]
  have hA : (0 : ℚ) <
      2 * ((w - 2 * min r (min (w / 2) (h / 2))) + (h - 2 * min r (min (w / 2) (h / 2))))
        + 3 * (2 * min r (min (w / 2) (h / 2))) := by
    linarith
  have hA' : (0 : ℝ) <
      ((2 * ((w - 2 * min r (min (w / 2) (h / 2))) + (h - 2 * min r (min (w / 2) (h / 2)))) : ℚ) : ℝ)
        + 3 * ((2 * min r (min (w / 2) (h / 2)) : ℚ) : ℝ) := by
    exact_mod_cast hA
  have hB : (0 : ℝ) ≤ ((2 * min r (min (w / 2) (h / 2)) : ℚ) : ℝ) := by
    exact_mod_cast (by linarith : (0 : ℚ) ≤ 2 * min r (min (w / 2) (h / 2)))
  nlinarith [Real.pi_gt_three]

/-- C9 counterexample: a zero-area `punch_hole` cutout at padding 0 is
returned as a `PathSpec` by the live builder, but its perimeter is 0,
not positive. -/
theorem claim_C9_counterexample :
    ∃ s, V3.buildPathSpec 360
        { type := .punch_hole, x := some 10, y := some 10, width := some 0,
          height := some 0 } 0 = some s ∧
      s.perimeter.toReal = 0 ∧ ¬ 0 < s.perimeter.toReal := by
  have hper : (V3.buildIslandSpec 360
      { type := .punch_hole, x := some 10, y := some 10, width := some 0,
        height := some 0 } 0).perimeter.toReal = 0 := by
    simp only [V3.buildIslandSpec, V3.BLEED, Option.getD_some]
    norm_num [circlePerimeter, ArcLen.toReal_piMul]
  exact ⟨_, rfl, hper, by rw [hper]; norm_num⟩

/-- C9 amended: the live builder's perimeter is positive whenever the
screen is positive, padding and dimension defaults are nonnegative, and —
for orbit shapes — the padded larger dimension is positive; a zero-area
orbit cutout at padding 0 escapes this and yields perimeter 0. -/
theorem claim_C9 (screenW p : ℚ) (c : Cutout)
    (hsw : 0 < screenW) (hp : 0 ≤ p)
    (hw : 0 ≤ c.width.getD 0) (hh : 0 ≤ c.height.getD 0)
    (hr : 0 ≤ c.radius.getD (min (c.width.getD 0) (c.height.getD 0) / 2))
    (horb : c.type = .notch ∨ c.type = .none ∨
      0 < max (c.width.getD 0) (c.height.getD 0) + 2 * p) :
    ∀ s, V3.buildPathSpec screenW c p = some s → 0 < s.perimeter.toReal := by
  intro s hs
  rw [V3.buildPathSpec] at hs
  by_cases hbar : c.type = .notch ∨ c.type = .none
  · rw [if_pos hbar] at hs
    injection hs with hsEq
    subst hsEq
    by_cases hnone : c.type = .none
    · rw [V3.buildNotchSpec, if_pos hnone]
      show 0 < (ArcLen.ofRat screenW).toReal
      rw [ArcLen.toReal_ofRat]
      exact_mod_cast hsw
    · rw [V3.buildNotchSpec, if_neg hnone]
      show 0 < (ArcLen.ofRat (screenW + 2 * (c.height.getD 0 + p - p)
        + (c.width.getD 0 + 2 * p - c.width.getD 0))).toReal
      rw [ArcLen.toReal_ofRat]
      exact_mod_cast (by linarith : (0 : ℚ) < screenW + 2 * (c.height.getD 0 + p - p)
        + (c.width.getD 0 + 2 * p - c.width.getD 0))
  · rw [if_neg hbar] at hs
    injection hs with hsEq
    subst hsEq
    have hpos : 0 < max (c.width.getD 0) (c.height.getD 0) + 2 * p := by
      rcases horb with hcase | hcase | hcase
      · exact absurd (Or.inl hcase) hbar
      · exact absurd (Or.inr hcase) hbar
      · exact hcase
    simp only [V3.buildIslandSpec]
    by_cases hc : |c.width.getD 0 - c.height.getD 0| < 2
    · rw [if_pos hc]
      show 0 < (circlePerimeter
        (max (c.width.getD 0 + 2 * p) (c.height.getD 0 + 2 * p) / 2)).toReal
      apply circlePerimeter_pos
      rw [max_add_add_right]
      linarith
    · rw [if_neg hc]
      show 0 < (roundedRectPerimeter (c.width.getD 0 + 2 * p) (c.height.getD 0 + 2 * p)
        (c.radius.getD (min (c.width.getD 0) (c.height.getD 0) / 2) + p)).toReal
      have hge : (2 : ℚ) ≤ |c.width.getD 0 - c.height.getD 0| := not_lt.mp hc
      have hwh : (2 : ℚ) ≤ c.width.getD 0 + c.height.getD 0 := by
        rcases abs_cases (c.width.getD 0 - c.height.getD 0) with ⟨heq, _⟩ | ⟨heq, _⟩ <;>
          rw [heq] at hge <;> linarith
      apply roundedRectPerimeter_pos <;> linarith

/-- Witness for C9 at a pill-shaped `punch_hole`, padding 4. -/
theorem claim_C9_witness :
    0 < (V3.buildIslandSpec 360
        { type := CutoutType.punch_hole, x := some 150, y := some 12,
          width := some 30, height := some 11, radius := Option.none } 4).perimeter.toReal :=
  claim_C9 360 4
    { type := CutoutType.punch_hole, x := some 150, y := some 12,
      width := some 30, height := some 11, radius := Option.none }
    (by norm_num) (by norm_num) (by norm_num) (by norm_num)
    (by norm_num) (by norm_num) _ rfl

/-- C8 counterexample: in the part_004 builder an island at `x = 0`
(flush with the left screen edge), padding 0, has `svgLeft = max(0, −20) = 0`,
so `svgLeft < x` fails even though the bleed (20) is positive. -/
theorem claim_C8_counterexample :
    ∃ s, V4.buildPathSpec 360
        { type := .island, x := some 0, y := some 50, width := some 100,
          height := some 30, radius := some 10 } 0 = some s ∧
      s.svgLeft = 0 ∧ ¬ s.svgLeft < 0 := by
  refine ⟨_, rfl, ?_, ?_⟩
  · show max 0 (0 - 0 - 20) = 0
    norm_num
  · show ¬ max 0 (0 - 0 - 20) < (0 : ℚ)
    norm_num

/-- C8 amended: for an island with complete dimensions,
`svgWidth = width + 2·padding + 2·bleed` holds in both mask-less builders
(part_004: `bleed = 20`; part_002: `bleed = padding + 12`), and
`svgLeft < x` holds whenever `padding ≥ 0` and — for part_004, which
clamps `svgLeft` to `max(0, padX − bleed)` — additionally `x > 0`. -/
theorem claim_C8 (screenW x y w h p : ℚ) (rad : Option ℚ)
    (hp : 0 ≤ p) (hx : 0 < x) :
    (∃ s, V4.buildPathSpec screenW
        { type := .island, x := some x, y := some y, width := some w,
          height := some h, radius := rad } p = some s ∧
      s.svgWidth = w + 2 * p + 2 * 20 ∧ s.svgLeft < x) ∧
    (∃ s, V2.buildPathSpec
        { type := .island, x := some x, y := some y, width := some w,
          height := some h, radius := rad } p = some s ∧
      s.svgWidth = w + 2 * p + 2 * (p + 12) ∧ s.svgLeft < x) := by
  constructor
  · refine ⟨_, rfl, by ring, ?_⟩
    show max 0 (x - p - 20) < x
    rcases le_or_lt (x - p - 20) 0 with hle | hlt
    · rw [max_eq_left hle]
      exact hx
    · rw [max_eq_right hlt.le]
      linarith
  · refine ⟨_, rfl, by ring, ?_⟩
    show x - p - (p + 12) < x
    linarith

/-- Witness for C8 at a centred island, padding 5. -/
theorem claim_C8_witness :
    (∃ s, V4.buildPathSpec 360
        { type := .island, x := some 120, y := some 10, width := some 120,
          height := some 40, radius := some 20 } 5 = some s ∧
      s.svgWidth = 120 + 2 * 5 + 2 * 20 ∧ s.svgLeft < 120) ∧
    (∃ s, V2.buildPathSpec
        { type := .island, x := some 120, y := some 10, width := some 120,
          height := some 40, radius := some 20 } 5 = some s ∧
      s.svgWidth = 120 + 2 * 5 + 2 * (5 + 12) ∧ s.svgLeft < 120) :=
  claim_C8 360 120 10 120 40 5 (some 20) (by norm_num) (by norm_num)

/-- Closed form of the perimeter returned by `V4.buildNotchBarPath`:
`screenW + 2·(h + padding) + (2π − 2)·r` with `r` the clamped corner
radius. -/
theorem v4_notchBar_perimeter_toReal (screenW bY cx cy w h p rad : ℚ) :
    (V4.buildNotchBarPath screenW bY cx cy w h p rad).2.toReal =
      (screenW : ℝ) + 2 * ((h : ℝ) + (p : ℝ))
        + (2 * Real.pi - 2) * ((V4.clampedR w h p rad : ℚ) : ℝ) := by
  simp only [V4.buildNotchBarPath, V4.clampedR, ArcLen.toReal_add, ArcLen.toReal_ofRat,
    ArcLen.toReal_piMul]
  push_cast
  ring

/-- C7: for a notch with complete dimensions that stays within the screen
bounds after padding, the perimeter returned by the live builder
(part_003) and by the part_004 builder is strictly increasing in the
padding. -/
theorem claim_C7 (screenW x y w h p1 p2 : ℚ) (rad : Option ℚ)
    (h0 : 0 ≤ p1) (h12 : p1 < p2)
    (hb1 : 0 ≤ x - p2) (hb2 : x + w + p2 ≤ screenW) :
    (∃ s1 s2,
      V3.buildPathSpec screenW
        { type := .notch, x := some x, y := some y, width := some w,
          height := some h, radius := rad } p1 = some s1 ∧
      V3.buildPathSpec screenW
        { type := .notch, x := some x, y := some y, width := some w,
          height := some h, radius := rad } p2 = some s2 ∧
      s1.perimeter.toReal < s2.perimeter.toReal) ∧
    (∃ t1 t2,
      V4.buildPathSpec screenW
        { type := .notch, x := some x, y := some y, width := some w,
          height := some h, radius := rad } p1 = some t1 ∧
      V4.buildPathSpec screenW
        { type := .notch, x := some x, y := some y, width := some w,
          height := some h, radius := rad } p2 = some t2 ∧
      t1.perimeter.toReal < t2.perimeter.toReal) := by
  constructor
  · refine ⟨_, _, rfl, rfl, ?_⟩
    show (ArcLen.ofRat (screenW + 2 * (h + p1 - p1) + (w + 2 * p1 - w))).toReal <
      (ArcLen.ofRat (screenW + 2 * (h + p2 - p2) + (w + 2 * p2 - w))).toReal
    rw [ArcLen.toReal_ofRat, ArcLen.toReal_ofRat]
    exact_mod_cast (by linarith : screenW + 2 * (h + p1 - p1) + (w + 2 * p1 - w) <
      screenW + 2 * (h + p2 - p2) + (w + 2 * p2 - w))
  · refine ⟨_, _, rfl, rfl, ?_⟩
    show (V4.buildNotchBarPath screenW 20 x (y + 20) w h p1 (rad.getD 4)).2.toReal <
      (V4.buildNotchBarPath screenW 20 x (y + 20) w h p2 (rad.getD 4)).2.toReal
    rw [v4_notchBar_perimeter_toReal, v4_notchBar_perimeter_toReal]
    have hr12 : V4.clampedR w h p1 (rad.getD 4) < V4.clampedR w h p2 (rad.getD 4) := by
      unfold V4.clampedR
      exact min_lt_min (by linarith) (min_lt_min (by linarith) (by linarith))
    have hrr : ((V4.clampedR w h p1 (rad.getD 4) : ℚ) : ℝ) <
        ((V4.clampedR w h p2 (rad.getD 4) : ℚ) : ℝ) := by exact_mod_cast hr12
    have hpp : ((p1 : ℚ) : ℝ) < ((p2 : ℚ) : ℝ) := by exact_mod_cast h12
    have hπ : (1 : ℝ) < Real.pi := by linarith [Real.pi_gt_three]
    have hprod : 0 < (2 * Real.pi - 2) *
        (((V4.clampedR w h p2 (rad.getD 4) : ℚ) : ℝ) -
          ((V4.clampedR w h p1 (rad.getD 4) : ℚ) : ℝ)) :=
      mul_pos (by linarith) (by linarith)
    linarith

/-- Witness for C7 at the test-suite notch, paddings 0 and 5. -/
theorem claim_C7_witness :
    (∃ s1 s2,
      V3.buildPathSpec 360
        { type := .notch, x := some 100, y := some 0, width := some 160,
          height := some 30, radius := some 10 } 0 = some s1 ∧
      V3.buildPathSpec 360
        { type := .notch, x := some 100, y := some 0, width := some 160,
          height := some 30, radius := some 10 } 5 = some s2 ∧
      s1.perimeter.toReal < s2.perimeter.toReal) ∧
    (∃ t1 t2,
      V4.buildPathSpec 360
        { type := .notch, x := some 100, y := some 0, width := some 160,
          height := some 30, radius := some 10 } 0 = some t1 ∧
      V4.buildPathSpec 360
        { type := .notch, x := some 100, y := some 0, width := some 160,
          height := some 30, radius := some 10 } 5 = some t2 ∧
      t1.perimeter.toReal < t2.perimeter.toReal) :=
  claim_C7 360 100 0 160 30 0 5 (some 10) (by norm_num) (by norm_num)
    (by norm_num) (by norm_num)

/-- C4 counterexample: at the test-suite notch geometry (`x = 100`,
`y = 0`, `w = 160`, `h = 30`, `radius = 10`, padding 0, in the part_004
builder's local frame `barY = 20`, `cutoutLocalY = 20`), the returned
perimeter is not the arc length of the emitted path (they differ by 20). -/
theorem claim_C4_counterexample :
    pathLength (V4.buildNotchBarPath 360 20 100 20 160 30 0 10).1 ≠
      (V4.buildNotchBarPath 360 20 100 20 160 30 0 10).2.toReal := by
  have hcl : V4.clampedR 160 30 0 10 = 10 := by
    unfold V4.clampedR
    norm_num [min_def]
  have key := v4_notchBar_length 360 20 100 20 160 30 0 10
    (by rw [hcl]; norm_num) (by rw [hcl]; norm_num) (by rw [hcl]; norm_num)
    (by rw [hcl]; norm_num)
  rw [key, hcl]
  intro hcontra
  norm_num at hcontra

/-- C4 amended: for every notch bar whose emitted segments fit on screen
(nonnegative clamped radius, run-in and run-out nonnegative, walls at
least `2r` tall), the exact arc length of the emitted path equals the
returned perimeter plus `2·(padY − barY − r)`: the horizontal runs, the
bottom segment and the four quarter arcs (`2πr` total) agree, but the
perimeter's wall terms are `padH − r` each while the emitted walls
measure `bottomY − barY − 2r` each; perimeter and path coincide only
when `padY = barY + r`. -/
theorem claim_C4 (screenW bY cx cy w h p rad : ℚ)
    (hr : 0 ≤ V4.clampedR w h p rad)
    (hhead : 0 ≤ (cx - p) + V4.clampedR w h p rad)
    (hwall : bY + 2 * V4.clampedR w h p rad ≤ (cy - p) + (h + p))
    (htail : (cx - p) + (w + 2 * p) - V4.clampedR w h p rad ≤ screenW) :
    pathLength (V4.buildNotchBarPath screenW bY cx cy w h p rad).1 =
      (V4.buildNotchBarPath screenW bY cx cy w h p rad).2.toReal
        + 2 * (((cy - p) - bY - V4.clampedR w h p rad : ℚ) : ℝ) :=
  v4_notchBar_length screenW bY cx cy w h p rad hr hhead hwall htail

/-- Witness for C4 at the same notch geometry. -/
theorem claim_C4_witness :
    pathLength (V4.buildNotchBarPath 360 20 100 20 160 30 0 10).1 =
      (V4.buildNotchBarPath 360 20 100 20 160 30 0 10).2.toReal
        + 2 * (((20 - 0 - 20 - V4.clampedR 160 30 0 10 : ℚ)) : ℝ) :=
  claim_C4 360 20 100 20 160 30 0 10
    (by unfold V4.clampedR; norm_num [min_def])
    (by unfold V4.clampedR; norm_num [min_def])
    (by unfold V4.clampedR; norm_num [min_def])
    (by unfold V4.clampedR; norm_num [min_def])

/-- Witness for C5 at `w = 2`, `h = 2`, `r = 1`. -/
theorem claim_C5_witness :
    (roundedRectPerimeter 2 2 1).toReal =
      2 * ((2 : ℝ) - 2 * ((min 1 (min ((2 : ℚ) / 2) ((2 : ℚ) / 2)) : ℚ) : ℝ))
        + 2 * ((2 : ℝ) - 2 * ((min 1 (min ((2 : ℚ) / 2) ((2 : ℚ) / 2)) : ℚ) : ℝ))
        + 2 * Real.pi * ((min 1 (min ((2 : ℚ) / 2) ((2 : ℚ) / 2)) : ℚ) : ℝ) ∧
    (roundedRectPerimeter 2 2 1).toReal ≥
      2 * ((2 : ℝ) + (2 : ℝ)) - 8 * ((min 1 (min ((2 : ℚ) / 2) ((2 : ℚ) / 2)) : ℚ) : ℝ) :=
  claim_C5 2 2 1 (by norm_num) (by norm_num) (by norm_num)
